import Mathlib

/-!
Verification of the live-data synchronization subsystem of hexfetch-ui
(`main.go`): the history merge (`updateLocalHEXJSON`), the configuration
manager (`ConfigManager`, `loadConfig`), and the polling loops.

Numeric metric fields are `float64` in Go; the merge and config code only
copy them around (no float arithmetic), so they are modelled by `Rat`.
Go `int` is modelled by `Int`.
-/

namespace HexFetch

/-- `HEXJSONEntry` from main.go: one day of historical data
(`currentDay`, `tshareRateHEX`, `dailyPayoutHEX`, `pricePulseX`). -/
structure HEXJSONEntry where
  currentDay : Int
  tshareRateHEX : Rat
  dailyPayoutHEX : Rat
  pricePulseX : Rat
deriving DecidableEq, Repr

/-- `LiveData` from main.go: the latest live snapshot. -/
structure LiveData where
  pricePulsechain : Rat
  tsharePricePulsechain : Rat
  tshareRateHEXPulsechain : Rat
  penaltiesHEXPulsechain : Rat
  payoutPerTsharePulsechain : Rat
  beat : Int
deriving DecidableEq, Repr

/-- The collection loop of `updateLocalHEXJSON` (main.go lines 813-820):
walk `remoteData` from the head, append entries whose `CurrentDay`
strictly exceeds `localMaxDay`, and `break` at the first entry that does
not exceed it. -/
def collectNewEntries (localMaxDay : Int) : List HEXJSONEntry → List HEXJSONEntry
  | [] => []
  | e :: rest =>
    if e.currentDay > localMaxDay then e :: collectNewEntries localMaxDay rest
    else []

/-- Errors that abort `updateLocalHEXJSON` before any write. -/
inductive UpdateErr where
  | loadFailure
  | fetchFailure
deriving DecidableEq, Repr

/-- `updateLocalHEXJSON` from main.go (lines 800-826), modelled as a
function of the results of `loadLocalHEXJSON` and `fetchHEXJSON`.
The value `Except.ok w` reports the write action performed:
`some data` means `saveLocalHEXJSON data` was called, `none` means the
function returned without writing the history file. -/
def updateLocalHEXJSON :
    Except UpdateErr (List HEXJSONEntry) → Except UpdateErr (List HEXJSONEntry) →
      Except UpdateErr (Option (List HEXJSONEntry))
  | .error e, _ => .error e
  | .ok _, .error e => .error e
  | .ok localData, .ok remoteData =>
    match localData with
    | [] => .ok (some remoteData)
    | first :: rest =>
      let newEntries := collectNewEntries first.currentDay remoteData
      if 0 < newEntries.length then .ok (some (newEntries ++ (first :: rest)))
      else .ok none

/-- The merge computed by `updateLocalHEXJSON`: empty local is replaced by
remote wholesale; otherwise the collected strictly-newer entries are
prepended to local. -/
def mergeHistory : List HEXJSONEntry → List HEXJSONEntry → List HEXJSONEntry
  | [], remoteData => remoteData
  | first :: rest, remoteData => collectNewEntries first.currentDay remoteData ++ (first :: rest)

/-- The history dataset on disk after a successful run of
`updateLocalHEXJSON` (starting from local dataset `l`, with the remote
feed returning `r`): the written data when a write happened, the old
local data otherwise. -/
def datasetAfterUpdate (l r : List HEXJSONEntry) : List HEXJSONEntry :=
  match updateLocalHEXJSON (Except.ok l) (Except.ok r) with
  | .ok (some written) => written
  | _ => l

/-- Day-descending order check: the sequence is strictly decreasing in
`currentDay` (which also forces day values to be pairwise distinct). -/
def sortedDescDay : List HEXJSONEntry → Bool
  | [] => true
  | [_] => true
  | a :: b :: rest => decide (b.currentDay < a.currentDay) && sortedDescDay (b :: rest)

/-- Entry with the given day and zero metrics, for concrete test inputs. -/
def mkEntry (d : Int) : HEXJSONEntry :=
  { currentDay := d, tshareRateHEX := 0, dailyPayoutHEX := 0, pricePulseX := 0 }

/-- The strict "newer day" relation between entries. -/
def dayGT (a b : HEXJSONEntry) : Prop := b.currentDay < a.currentDay

instance : DecidableRel dayGT := fun a b => inferInstanceAs (Decidable (b.currentDay < a.currentDay))

instance : IsTrans HEXJSONEntry dayGT := ⟨fun _ _ _ h1 h2 => lt_trans h2 h1⟩

/-! ## Configuration: `Config`, `loadConfig`, `ConfigManager` and its call sites -/

/-- `Config` from main.go: the persisted polling configuration. -/
structure Config where
  liveDataFrequency : Int
deriving DecidableEq, Repr

/-- `defaultLiveDataFrequency` from main.go line 699 (minutes). -/
def defaultLiveDataFrequency : Int := 15

/-- The possible states of the persisted `settings/config.json` file as
seen by `loadConfig`: absent (`os.IsNotExist`), unreadable for another
reason, present but undecodable, or decoding to `config`. -/
inductive ConfigFileState where
  | absent
  | openFailure
  | decodeFailure
  | ok (config : Config)
deriving DecidableEq, Repr

/-- The error kinds `loadConfig` can return. -/
inductive ConfigErr where
  | openErr
  | decodeErr
deriving DecidableEq, Repr

/-- `loadConfig` from main.go (lines 856-874), modelled over the file
state. Returns the Go pair `(Config, error)`: `none` models a nil error.
On an open failure or a decode failure the Go code returns the zero
value `Config\x7b\x7d` together with the error. -/
def loadConfig : ConfigFileState → Config × Option ConfigErr
  | .absent => ({ liveDataFrequency := defaultLiveDataFrequency }, none)
  | .openFailure => ({ liveDataFrequency := 0 }, some .openErr)
  | .decodeFailure => ({ liveDataFrequency := 0 }, some .decodeErr)
  | .ok config =>
    if config.liveDataFrequency ≤ 0 then
      ({ liveDataFrequency := defaultLiveDataFrequency }, none)
    else (config, none)

/-- The startup sequence of `main` (lines 1474-1480): call `loadConfig`;
on error, log it and overwrite the frequency with the default; the
resulting frequency is passed to `SetLiveDataFrequency`. -/
def startupConfigFrequency (file : ConfigFileState) : Int :=
  match loadConfig file with
  | (_, some _) => defaultLiveDataFrequency
  | (config, none) => config.liveDataFrequency

/-- `ConfigManager.GetLiveDataFrequency` (main.go 637-641): reads the
stored frequency. The manager state is the stored `LiveDataFrequency`. -/
def getLiveDataFrequency (cm : Int) : Int := cm

/-- `ConfigManager.SetLiveDataFrequency` (main.go 643-657): stores the
given frequency unconditionally (subscriber notification has no effect
on the stored value). -/
def setLiveDataFrequency (frequency : Int) (_cm : Int) : Int := frequency

/-- The initial `configManager` value (main.go 633-635):
`Config\x7bLiveDataFrequency: defaultLiveDataFrequency\x7d`. -/
def configManagerInitialFrequency : Int := defaultLiveDataFrequency

/-- The startup call site `configManager.SetLiveDataFrequency(config.LiveDataFrequency)`
(main.go line 1480). -/
def startupSetFrequency (file : ConfigFileState) (cm : Int) : Int :=
  setLiveDataFrequency (startupConfigFrequency file) cm

/-- The "Save Frequency" button handler (main.go 1412-1426): parse the
entry text (`parsed = none` models an `Atoi` error); reject a parse
error or a non-positive value with a dialog and no state change; if
`saveConfig` fails, log and return without setting; otherwise call
`SetLiveDataFrequency`. -/
def saveFrequencyClick (parsed : Option Int) (saveOk : Bool) (cm : Int) : Int :=
  match parsed with
  | none => cm
  | some frequency =>
    if frequency ≤ 0 then cm
    else if saveOk then setLiveDataFrequency frequency cm
    else cm

/-! ## The main polling goroutine (main.go 1493-1519) -/

/-- Outcome of one `fetchLiveData()` call. -/
inductive FetchOutcome where
  | ok (data : LiveData)
  | err
deriving DecidableEq, Repr

/-- The events the main polling loop can wake on: its ticker firing
(with the result of the `fetchLiveData` call it then performs), or a
frequency-change notification. This loop has no cancellation case. -/
inductive MainLoopEvent where
  | tick (fetch : FetchOutcome)
  | changeSignal
deriving DecidableEq, Repr

/-- State visible to the main polling loop: the `ConfigManager`'s stored
frequency, the shared `latestLiveData` cache, and the goroutine-local
`frequency` variable, which is always the interval the ticker was last
armed with. -/
structure MainLoopState where
  config : Int
  cache : LiveData
  frequency : Int
deriving DecidableEq, Repr

/-- Result of one iteration of the main polling loop body. -/
structure MainStepResult where
  state : MainLoopState
  loggedFetchError : Bool
  exited : Bool
deriving DecidableEq, Repr

/-- One iteration of the `for \x7b select \x7d` body of the main polling
goroutine (main.go 1499-1518). On a tick it fetches: on error it only
logs; on success it stores the data in the cache; in both cases it then
re-reads `GetLiveDataFrequency` and resets the ticker with it. On a
change signal it re-reads the frequency and resets the ticker. No case
exits the loop or the process. -/
def mainLoopStep (s : MainLoopState) : MainLoopEvent → MainStepResult
  | .tick .err =>
    { state := { config := s.config, cache := s.cache, frequency := s.config }
      loggedFetchError := true
      exited := false }
  | .tick (.ok data) =>
    { state := { config := s.config, cache := data, frequency := s.config }
      loggedFetchError := false
      exited := false }
  | .changeSignal =>
    { state := { config := s.config, cache := s.cache, frequency := s.config }
      loggedFetchError := false
      exited := false }

/-! ## The cancellable tab ticker goroutine (main.go 1144-1182)

The goroutine started by `createLiveDataTab` waits on its ticker, its
frequency-change channel and `ctx.Done()`. On a tick it reads the shared
cache and refreshes labels, then re-reads the frequency and resets its
ticker; on a change signal it re-reads and resets; on `ctx.Done()` it
returns, which runs the deferred `ticker.Stop()`. It never calls
`fetchLiveData` and never writes `latestLiveData`. -/

/-- Phase of a tab ticker goroutine: still in its select loop, or
returned after its cancellation context fired. -/
inductive SchedulerPhase where
  | armed
  | cancelled
deriving DecidableEq, Repr

/-- State of one tab ticker goroutine: its phase, the interval its
ticker is armed with, and whether the deferred `ticker.Stop()` ran. -/
structure TabLoopState where
  phase : SchedulerPhase
  frequency : Int
  tickerStopped : Bool
deriving DecidableEq, Repr

/-- The events a tab ticker goroutine can wake on. -/
inductive TabLoopEvent where
  | tick
  | changeSignal
  | cancel
deriving DecidableEq, Repr

/-- Effects of one delivered event on a tab ticker goroutine. -/
structure TabStepResult where
  state : TabLoopState
  fetched : Bool
  cacheWrite : Option LiveData
deriving DecidableEq, Repr

/-- Delivering one event to a tab ticker goroutine, given the current
`ConfigManager` frequency `config`. A goroutine that has returned
(phase `cancelled`) no longer runs any select case: nothing happens. -/
def tabLoopStep (config : Int) (s : TabLoopState) (ev : TabLoopEvent) : TabStepResult :=
  match s.phase with
  | .cancelled => { state := s, fetched := false, cacheWrite := none }
  | .armed =>
    match ev with
    | .tick =>
      { state := { phase := .armed, frequency := config, tickerStopped := s.tickerStopped }
        fetched := false
        cacheWrite := none }
    | .changeSignal =>
      { state := { phase := .armed, frequency := config, tickerStopped := s.tickerStopped }
        fetched := false
        cacheWrite := none }
    | .cancel =>
      { state := { phase := .cancelled, frequency := s.frequency, tickerStopped := true }
        fetched := false
        cacheWrite := none }

/-- Delivering a sequence of events (each with the `ConfigManager`
frequency current at that moment): final state, whether any fetch was
initiated, and the list of cache writes performed. -/
def tabLoopRun (s : TabLoopState) :
    List (Int × TabLoopEvent) → TabLoopState × Bool × List LiveData
  | [] => (s, false, [])
  | (config, ev) :: evs =>
    let r := tabLoopStep config s ev
    let rest := tabLoopRun r.state evs
    (rest.1, r.fetched || rest.2.1, r.cacheWrite.toList ++ rest.2.2)

/-! ## Shared lemmas about the merge -/

theorem sortedDescDay_iff_chain (l : List HEXJSONEntry) :
    sortedDescDay l = true ↔ List.Chain' dayGT l := by
  induction l with
  | nil => simp [sortedDescDay]
  | cons a rest ih =>
    cases rest with
    | nil => simp [sortedDescDay]
    | cons b rest' =>
      rw [List.chain'_cons, ← ih]
      simp [sortedDescDay, dayGT, and_comm]

theorem collectNewEntries_eq_takeWhile (d : Int) (r : List HEXJSONEntry) :
    collectNewEntries d r = r.takeWhile (fun e => decide (d < e.currentDay)) := by
  induction r with
  | nil => rfl
  | cons e rest ih =>
    by_cases h : d < e.currentDay
    · simp [collectNewEntries, List.takeWhile_cons, h, ih]
    · simp [collectNewEntries, List.takeWhile_cons, h]

/-- Spec §8 test vector: local days `[100, 99, 98]` with remote days
`[102, 101, 100, 99]` merge to `[102, 101, 100, 99, 98]`. -/
theorem mergeHistory_test_vector : mergeHistory [mkEntry 100, mkEntry 99, mkEntry 98]
    [mkEntry 102, mkEntry 101, mkEntry 100, mkEntry 99] =
    [mkEntry 102, mkEntry 101, mkEntry 100, mkEntry 99, mkEntry 98] := by decide

/-- Spec §8 test vector: empty local bootstraps to the remote data. -/
theorem mergeHistory_bootstrap_vector : mergeHistory [] [mkEntry 5, mkEntry 4, mkEntry 3] =
    [mkEntry 5, mkEntry 4, mkEntry 3] := by decide

/-- The dataset left behind by a successful `updateLocalHEXJSON` run is
exactly the merge of the loaded local data with the fetched remote data. -/
theorem datasetAfterUpdate_eq_mergeHistory (l r : List HEXJSONEntry) :
    datasetAfterUpdate l r = mergeHistory l r := by
  cases l with
  | nil => rfl
  | cons first rest =>
    rw [datasetAfterUpdate, updateLocalHEXJSON]
    by_cases h : 0 < (collectNewEntries first.currentDay r).length
    · simp [h, mergeHistory]
    · have hnil : collectNewEntries first.currentDay r = [] :=
        List.length_eq_zero.mp (Nat.eq_zero_of_not_pos h)
      simp [h, mergeHistory, hnil]

theorem collectNewEntries_nil_of_le (d : Int) (r : List HEXJSONEntry)
    (h : ∀ e ∈ r, e.currentDay ≤ d) : collectNewEntries d r = [] := by
  cases r with
  | nil => rfl
  | cons e rest =>
    have he : e.currentDay ≤ d := h e (List.mem_cons_self e rest)
    simp [collectNewEntries, not_lt.mpr he]

/-- Merging a second time with the same remote data changes nothing. -/
theorem mergeHistory_merge_self (l r : List HEXJSONEntry) :
    mergeHistory (mergeHistory l r) r = mergeHistory l r := by
  cases l with
  | nil =>
    show mergeHistory r r = r
    cases r with
    | nil => rfl
    | cons e rest =>
      show collectNewEntries e.currentDay (e :: rest) ++ (e :: rest) = e :: rest
      simp [collectNewEntries]
  | cons first rest =>
    show mergeHistory (collectNewEntries first.currentDay r ++ (first :: rest)) r = _
    cases hc : collectNewEntries first.currentDay r with
    | nil => simp [mergeHistory, hc]
    | cons c0 c' =>
      obtain ⟨r', hr⟩ : ∃ r', r = c0 :: r' := by
        rw [collectNewEntries_eq_takeWhile] at hc
        cases r with
        | nil => simp at hc
        | cons r0 r' =>
          rw [List.takeWhile_cons] at hc
          by_cases h : first.currentDay < r0.currentDay
          · rw [if_pos (by simpa using h)] at hc
            exact ⟨r', by rw [(List.cons.injEq _ _ _ _).mp hc |>.1]⟩
          · simp [h] at hc
      subst hr
      have hz : collectNewEntries c0.currentDay (c0 :: r') = [] := by
        simp [collectNewEntries]
      simp [mergeHistory, hz, hc]

/-- Every collected entry is strictly newer than the cutoff day. -/
theorem mem_collectNewEntries_gt (d : Int) (r : List HEXJSONEntry) (x : HEXJSONEntry)
    (hx : x ∈ collectNewEntries d r) : d < x.currentDay := by
  rw [collectNewEntries_eq_takeWhile] at hx
  have h := List.mem_takeWhile_imp hx
  simpa using h

/-- A day-descending list stays day-descending after taking the
strictly-newer head segment and prepending it to a day-descending list
whose head is not newer than any collected entry. -/
theorem chain_collect_append (first : HEXJSONEntry) (rest r : List HEXJSONEntry)
    (hl : List.Chain' dayGT (first :: rest)) (hr : List.Chain' dayGT r) :
    List.Chain' dayGT (collectNewEntries first.currentDay r ++ (first :: rest)) := by
  rw [List.chain'_append]
  refine ⟨?_, hl, ?_⟩
  · rw [collectNewEntries_eq_takeWhile]
    exact List.Chain'.prefix hr ( List.takeWhile_prefix _)
  · intro x hx y hy
    have hy' : y = first := by
      simp only [List.head?_cons, Option.mem_def, Option.some.injEq] at hy
      exact hy.symm
    obtain ⟨hne, hxeq⟩ := List.mem_getLast?_eq_getLast hx
    have hxmem : x ∈ collectNewEntries first.currentDay r :=
      hxeq ▸ List.getLast_mem hne
    subst hy'
    exact mem_collectNewEntries_gt _ r x hxmem

/-- A day-descending list has pairwise distinct day values. -/
theorem nodup_days_of_chain (l : List HEXJSONEntry)
    (h : List.Chain' dayGT l) : (l.map (fun e => e.currentDay)).Nodup := by
  have hp : l.Pairwise dayGT := List.chain'_iff_pairwise.mp h
  rw [List.Nodup, List.pairwise_map]
  exact hp.imp (fun hab => ne_of_gt hab)

/-! ## Claim theorems -/

/-- Claim C1: for every pair of day-descending sequences, the merge of
`updateLocalHEXJSON` returns remote unchanged when local is empty;
otherwise it returns the prefix of remote whose days strictly exceed the
day of local's first element (stopping at the first entry that does not
exceed it), in original order, prepended to local; and when that prefix
is empty the result is local itself. -/
theorem mergeHistory_spec (l r : List HEXJSONEntry)
    (hl : sortedDescDay l = true) (hr : sortedDescDay r = true) :
    (l = [] → mergeHistory l r = r) ∧
    (∀ first rest, l = first :: rest →
      mergeHistory l r =
        r.takeWhile (fun e => decide (first.currentDay < e.currentDay)) ++ l) ∧
    (∀ first rest, l = first :: rest →
      r.takeWhile (fun e => decide (first.currentDay < e.currentDay)) = [] →
      mergeHistory l r = l) := by
  refine ⟨fun h => by rw [h]; rfl, fun first rest h => ?_, fun first rest h hempty => ?_⟩
  · rw [h, mergeHistory, collectNewEntries_eq_takeWhile]
  · rw [h, mergeHistory, collectNewEntries_eq_takeWhile, hempty]
    rfl

/-- Witness for C1 at local days `[100, 99]`, remote days `[102, 101, 100]`. -/
theorem mergeHistory_spec_witness :
    mergeHistory [mkEntry 100, mkEntry 99] [mkEntry 102, mkEntry 101, mkEntry 100] =
      ([mkEntry 102, mkEntry 101, mkEntry 100].takeWhile
        (fun e => decide ((mkEntry 100).currentDay < e.currentDay))) ++
        [mkEntry 100, mkEntry 99] :=
  (mergeHistory_spec [mkEntry 100, mkEntry 99] [mkEntry 102, mkEntry 101, mkEntry 100]
    (by decide) (by decide)).2.1 (mkEntry 100) [mkEntry 99] rfl

/-- Claim C2: for day-descending inputs (day values therefore pairwise
distinct), the merged result is again strictly descending by day and has
no duplicate day values. -/
theorem mergeHistory_preserves_invariant (l r : List HEXJSONEntry)
    (hl : sortedDescDay l = true) (hr : sortedDescDay r = true) :
    sortedDescDay (mergeHistory l r) = true ∧
    ((mergeHistory l r).map (fun e => e.currentDay)).Nodup := by
  have hchain : List.Chain' dayGT (mergeHistory l r) := by
    cases l with
    | nil => exact (sortedDescDay_iff_chain r).mp hr
    | cons first rest =>
      exact chain_collect_append first rest r
        ((sortedDescDay_iff_chain _).mp hl) ((sortedDescDay_iff_chain _).mp hr)
  exact ⟨(sortedDescDay_iff_chain _).mpr hchain, nodup_days_of_chain _ hchain⟩

/-- Witness for C2 at local days `[100, 99, 98]`, remote days `[102, 101, 100, 99]`. -/
theorem mergeHistory_preserves_invariant_witness :
    sortedDescDay (mergeHistory [mkEntry 100, mkEntry 99, mkEntry 98]
      [mkEntry 102, mkEntry 101, mkEntry 100, mkEntry 99]) = true :=
  (mergeHistory_preserves_invariant [mkEntry 100, mkEntry 99, mkEntry 98]
    [mkEntry 102, mkEntry 101, mkEntry 100, mkEntry 99] (by decide) (by decide)).1

/-- Claim C3: the merge is idempotent — a non-empty local whose first
element's day is at least every remote day absorbs the merge, and
re-merging the same remote data after a first merge is a no-op. -/
theorem mergeHistory_idempotent (l r : List HEXJSONEntry) :
    (∀ first rest, l = first :: rest →
      (∀ e ∈ r, e.currentDay ≤ first.currentDay) → mergeHistory l r = l) ∧
    mergeHistory (mergeHistory l r) r = mergeHistory l r := by
  refine ⟨?_, mergeHistory_merge_self l r⟩
  intro first rest h hle
  rw [h, mergeHistory, collectNewEntries_nil_of_le first.currentDay r hle]
  rfl

/-- Witness for C3 at local days `[100]`, remote days `[100, 99]`. -/
theorem mergeHistory_idempotent_witness :
    mergeHistory [mkEntry 100] [mkEntry 100, mkEntry 99] = [mkEntry 100] ∧
    mergeHistory (mergeHistory [mkEntry 100] [mkEntry 100, mkEntry 99])
      [mkEntry 100, mkEntry 99] = mergeHistory [mkEntry 100] [mkEntry 100, mkEntry 99] :=
  ⟨(mergeHistory_idempotent [mkEntry 100] [mkEntry 100, mkEntry 99]).1
      (mkEntry 100) [] rfl (by decide),
    (mergeHistory_idempotent [mkEntry 100] [mkEntry 100, mkEntry 99]).2⟩

/-- Claim C4: with local days `[100]` and the non-descending remote days
`[102, 99, 101]`, the early exit stops at day 99 and the entry with day
101 is dropped from the merge even though it strictly exceeds local's
maximum day. -/
theorem mergeHistory_early_exit_drops_newer :
    sortedDescDay [mkEntry 102, mkEntry 99, mkEntry 101] = false ∧
    mkEntry 101 ∈ [mkEntry 102, mkEntry 99, mkEntry 101] ∧
    (mkEntry 100).currentDay < (mkEntry 101).currentDay ∧
    mergeHistory [mkEntry 100] [mkEntry 102, mkEntry 99, mkEntry 101] =
      [mkEntry 102, mkEntry 100] ∧
    mkEntry 101 ∉ mergeHistory [mkEntry 100] [mkEntry 102, mkEntry 99, mkEntry 101] := by
  decide

/-- Claim C5, counterexample: with an empty local dataset and an empty
remote feed, the merge result equals local, yet `updateLocalHEXJSON`
takes the bootstrap branch and writes the (empty) remote data to the
history file. -/
theorem updateLocalHEXJSON_writes_on_noop_bootstrap :
    mergeHistory [] [] = ([] : List HEXJSONEntry) ∧
    updateLocalHEXJSON (Except.ok []) (Except.ok []) = Except.ok (some []) :=
  ⟨rfl, rfl⟩

/-- Claim C5, amended: when the loaded local dataset is non-empty and
the merge result equals it, `updateLocalHEXJSON` does not write the
history file; when local is empty the bootstrap branch always writes the
fetched remote data, even when remote is empty. -/
theorem updateLocalHEXJSON_no_write_when_noop (first : HEXJSONEntry)
    (rest r : List HEXJSONEntry)
    (h : mergeHistory (first :: rest) r = first :: rest) :
    updateLocalHEXJSON (Except.ok (first :: rest)) (Except.ok r) = Except.ok none := by
  have hcoll : collectNewEntries first.currentDay r = [] := by
    have hlen := congrArg List.length h
    rw [mergeHistory, List.length_append] at hlen
    have : (collectNewEntries first.currentDay r).length = 0 := by omega
    exact List.length_eq_zero.mp this
  simp [updateLocalHEXJSON, hcoll]

/-- Witness for the amended C5 at local days `[5]`, remote days `[5, 4]`. -/
theorem updateLocalHEXJSON_no_write_when_noop_witness :
    updateLocalHEXJSON (Except.ok [mkEntry 5]) (Except.ok [mkEntry 5, mkEntry 4]) =
      Except.ok none :=
  updateLocalHEXJSON_no_write_when_noop (mkEntry 5) [] [mkEntry 5, mkEntry 4] (by decide)

/-- After a tab ticker goroutine has returned, delivering any further
events has no effect at all. -/
theorem tabLoopRun_cancelled (s : TabLoopState) (hs : s.phase = SchedulerPhase.cancelled)
    (evs : List (Int × TabLoopEvent)) : tabLoopRun s evs = (s, false, []) := by
  induction evs with
  | nil => rfl
  | cons ev evs ih =>
    obtain ⟨config, e⟩ := ev
    simp [tabLoopRun, tabLoopStep, hs, ih]

/-- Claim C6: when the fetch in a polling cycle of the main loop fails,
the loop logs the error, does not exit, leaves the cached snapshot and
the configured interval untouched, and re-arms the ticker with the
unchanged previous interval (the goroutine-local `frequency`, which
always equals the ticker's current interval, is re-read from the
unmodified configuration). -/
theorem mainLoop_fetch_failure_non_fatal (s : MainLoopState)
    (h : s.frequency = s.config) :
    (mainLoopStep s (MainLoopEvent.tick FetchOutcome.err)).loggedFetchError = true ∧
    (mainLoopStep s (MainLoopEvent.tick FetchOutcome.err)).exited = false ∧
    (mainLoopStep s (MainLoopEvent.tick FetchOutcome.err)).state.cache = s.cache ∧
    (mainLoopStep s (MainLoopEvent.tick FetchOutcome.err)).state.config = s.config ∧
    (mainLoopStep s (MainLoopEvent.tick FetchOutcome.err)).state.frequency = s.frequency := by
  refine ⟨rfl, rfl, rfl, rfl, ?_⟩
  rw [h]
  rfl

/-- Witness for C6 at a concrete loop state with interval 15. -/
theorem mainLoop_fetch_failure_non_fatal_witness :
    (mainLoopStep ⟨15, ⟨1, 2, 3, 4, 5, 6⟩, 15⟩ (MainLoopEvent.tick FetchOutcome.err)).state.cache
        = ⟨1, 2, 3, 4, 5, 6⟩ ∧
    (mainLoopStep ⟨15, ⟨1, 2, 3, 4, 5, 6⟩, 15⟩
        (MainLoopEvent.tick FetchOutcome.err)).state.frequency = 15 :=
  ⟨(mainLoop_fetch_failure_non_fatal ⟨15, ⟨1, 2, 3, 4, 5, 6⟩, 15⟩ rfl).2.2.1,
    (mainLoop_fetch_failure_non_fatal ⟨15, ⟨1, 2, 3, 4, 5, 6⟩, 15⟩ rfl).2.2.2.2⟩

/-- Claim C7: once the cancellation signal reaches a tab ticker
goroutine in the armed phase, it releases its timer, reaches the
terminal cancelled phase, and no event delivered afterwards ever causes
a fetch or a write to the shared live-data cache. -/
theorem tabLoop_cancellation_terminal (config : Int) (s : TabLoopState)
    (h : s.phase = SchedulerPhase.armed) (evs : List (Int × TabLoopEvent)) :
    (tabLoopStep config s TabLoopEvent.cancel).state.phase = SchedulerPhase.cancelled ∧
    (tabLoopStep config s TabLoopEvent.cancel).state.tickerStopped = true ∧
    (tabLoopStep config s TabLoopEvent.cancel).fetched = false ∧
    (tabLoopStep config s TabLoopEvent.cancel).cacheWrite = none ∧
    tabLoopRun (tabLoopStep config s TabLoopEvent.cancel).state evs =
      ((tabLoopStep config s TabLoopEvent.cancel).state, false, []) := by
  have hstep : tabLoopStep config s TabLoopEvent.cancel =
      ⟨⟨SchedulerPhase.cancelled, s.frequency, true⟩, false, none⟩ := by
    rw [tabLoopStep, h]
  rw [hstep]
  exact ⟨rfl, rfl, rfl, rfl, tabLoopRun_cancelled _ rfl evs⟩

/-- Witness for C7: cancelling an armed goroutine, then delivering a
tick and a change signal. -/
theorem tabLoop_cancellation_terminal_witness :
    (tabLoopStep 15 ⟨SchedulerPhase.armed, 15, false⟩ TabLoopEvent.cancel).state.phase
        = SchedulerPhase.cancelled ∧
    tabLoopRun (tabLoopStep 15 ⟨SchedulerPhase.armed, 15, false⟩ TabLoopEvent.cancel).state
        [(7, TabLoopEvent.tick), (9, TabLoopEvent.changeSignal)] =
      ((tabLoopStep 15 ⟨SchedulerPhase.armed, 15, false⟩ TabLoopEvent.cancel).state,
        false, []) :=
  ⟨(tabLoop_cancellation_terminal 15 ⟨SchedulerPhase.armed, 15, false⟩ rfl
      [(7, TabLoopEvent.tick), (9, TabLoopEvent.changeSignal)]).1,
    (tabLoop_cancellation_terminal 15 ⟨SchedulerPhase.armed, 15, false⟩ rfl
      [(7, TabLoopEvent.tick), (9, TabLoopEvent.changeSignal)]).2.2.2.2⟩

/-- Claim C8: `loadConfig` yields the 15-minute default with a nil error
exactly when the file is absent or decodes to a non-positive frequency;
a positive decoded value is returned as-is, and the two failure modes
return the zero config together with an error. -/
theorem loadConfig_default_fallback :
    loadConfig ConfigFileState.absent =
      ({ liveDataFrequency := defaultLiveDataFrequency }, none) ∧
    (∀ c : Config, c.liveDataFrequency ≤ 0 →
      loadConfig (ConfigFileState.ok c) =
        ({ liveDataFrequency := defaultLiveDataFrequency }, none)) ∧
    (∀ c : Config, 0 < c.liveDataFrequency →
      loadConfig (ConfigFileState.ok c) = (c, none)) ∧
    loadConfig ConfigFileState.openFailure =
      ({ liveDataFrequency := 0 }, some ConfigErr.openErr) ∧
    loadConfig ConfigFileState.decodeFailure =
      ({ liveDataFrequency := 0 }, some ConfigErr.decodeErr) := by
  refine ⟨rfl, ?_, ?_, rfl, rfl⟩
  · intro c hc
    simp [loadConfig, hc]
  · intro c hc
    simp [loadConfig, not_le.mpr hc]

/-- Witness for C8 at decoded frequencies 0 and 20. -/
theorem loadConfig_default_fallback_witness :
    loadConfig (ConfigFileState.ok ⟨0⟩) =
      ({ liveDataFrequency := defaultLiveDataFrequency }, none) ∧
    loadConfig (ConfigFileState.ok ⟨20⟩) = (⟨20⟩, none) :=
  ⟨loadConfig_default_fallback.2.1 ⟨0⟩ (by decide),
    loadConfig_default_fallback.2.2.1 ⟨20⟩ (by decide)⟩

/-- Claim C9: every operation on the stored polling interval keeps it
strictly positive — the initial `configManager` value is positive, the
startup seeding from `loadConfig` always stores a positive value, and
the settings-tab save handler (the only other `SetLiveDataFrequency`
call site) preserves positivity. -/
theorem frequency_always_positive :
    0 < getLiveDataFrequency configManagerInitialFrequency ∧
    (∀ file cm, 0 < getLiveDataFrequency (startupSetFrequency file cm)) ∧
    (∀ parsed saveOk cm, 0 < getLiveDataFrequency cm →
      0 < getLiveDataFrequency (saveFrequencyClick parsed saveOk cm)) := by
  refine ⟨by decide, ?_, ?_⟩
  · intro file cm
    cases file with
    | absent => exact (by decide : (0 : Int) < defaultLiveDataFrequency)
    | openFailure => exact (by decide : (0 : Int) < defaultLiveDataFrequency)
    | decodeFailure => exact (by decide : (0 : Int) < defaultLiveDataFrequency)
    | ok c =>
      by_cases h : c.liveDataFrequency ≤ 0
      · simp [getLiveDataFrequency, startupSetFrequency, setLiveDataFrequency,
          startupConfigFrequency, loadConfig, h, defaultLiveDataFrequency]
      · simp [getLiveDataFrequency, startupSetFrequency, setLiveDataFrequency,
          startupConfigFrequency, loadConfig, h]
        omega
  · intro parsed saveOk cm hcm
    match parsed with
    | none => exact hcm
    | some f =>
      by_cases hf : f ≤ 0
      · simpa [saveFrequencyClick, hf] using hcm
      · cases saveOk with
        | true =>
          simp [saveFrequencyClick, hf, setLiveDataFrequency, getLiveDataFrequency]
          omega
        | false => simpa [saveFrequencyClick, hf] using hcm

/-- Witness for C9: the settings handler accepting frequency 30 from a
state holding the default. -/
theorem frequency_always_positive_witness :
    0 < getLiveDataFrequency (saveFrequencyClick (some 30) true 15) :=
  frequency_always_positive.2.2 (some 30) true 15 (by decide)

/-- Claim C10: on malformed JSON, `loadConfig` returns the zero config
together with a decode error instead of substituting the default, and
the startup sequence then applies the default itself after logging the
error, so the seeded frequency is still 15. -/
theorem loadConfig_decode_error_behavior :
    loadConfig ConfigFileState.decodeFailure =
      ({ liveDataFrequency := 0 }, some ConfigErr.decodeErr) ∧
    (loadConfig ConfigFileState.decodeFailure).1.liveDataFrequency ≠
      defaultLiveDataFrequency ∧
    startupConfigFrequency ConfigFileState.decodeFailure = defaultLiveDataFrequency ∧
    startupSetFrequency ConfigFileState.decodeFailure configManagerInitialFrequency =
      defaultLiveDataFrequency :=
  ⟨rfl, by decide, rfl, rfl⟩

end HexFetch
